import Mathlib

/-!
Verification development for the MedStroke backend (FastAPI + SQLAlchemy).

Shallow embedding of the parts of the repository under scrutiny:
* `backend/chatgpt_service.py` — the `ChatGPTTreatmentPlanService` class:
  markdown sanitization (`_clean_markdown`), plan generation
  (`generate_treatment_plan`) and refinement (`refine_treatment_plan`).
* `backend/auth.py` — patient registration, login, logout and the in-memory
  session store.
* `backend/models.py` — the ORM rows the above operations read and write.

Python semantics that matter here and how they are modelled:
* strings are `List Char` (wrapped in `String` at the interfaces);
* `re.sub` calls are hand-compiled, pattern by pattern, into scanning
  functions; every pattern in the source matches at least one character, so
  each scanner consumes input on every step and a fuel of `length + 1`
  suffices (the fuel-exhausted branch is unreachable);
* `\s` is the ASCII whitespace class of `re` (space, tab, newline, carriage
  return, vertical tab, form feed), `\d` is `0-9`;
* the SQLAlchemy session is a pair of association lists (users, patients);
  `query(...).filter_by(...).first()` is `List.find?`;
* the `active_sessions` dict is an association list with unique keys:
  assignment is insert-at-front after erasing the key, `in` is key membership,
  `del` is erasure of the key;
* the OpenAI client call is an oracle parameter returning `Except`:
  `Except.ok` is a normal response, `Except.error` is a raised exception
  carrying `str(e)`.
-/

/-! ## Character classes (`re` ASCII semantics) -/

/-- The `re` whitespace class `\s` (and the character set Python's
`str.strip` removes), restricted to ASCII. -/
def isPySpace (c : Char) : Bool :=
  c = ' ' || c = '\t' || c = '\n' || c = '\r' || c = '\x0b' || c = '\x0c'

/-- The `re` digit class `\d`. -/
def isDigitCh (c : Char) : Bool :=
  '0' ≤ c && c ≤ '9'

/-- Does a (possibly empty) list of characters end with a newline?  Used to
decide whether the position right after a consumed run of whitespace is a
line start for the next `^`-anchored match. -/
def endsWithNL (l : List Char) : Bool :=
  match l.getLast? with
  | some c => c = '\n'
  | none => false

/-- Python `str.strip()` on both ends. -/
def pstrip (cs : List Char) : List Char :=
  ((cs.dropWhile isPySpace).reverse.dropWhile isPySpace).reverse

/-- Python `text.split('\n')`. -/
def splitNL : List Char → List (List Char)
  | [] => [[]]
  | c :: rest =>
    if c = '\n' then [] :: splitNL rest
    else
      match splitNL rest with
      | [] => [[c]]
      | l :: ls => (c :: l) :: ls

/-- Python `'\n'.join(lines)`. -/
def joinNL : List (List Char) → List Char
  | [] => []
  | [l] => l
  | l :: ls => l ++ '\n' :: joinNL ls

/-! ## The regex passes of `_clean_markdown`, in source order -/

/-- `re.sub(r'^#{1,6}\s*', '', text, flags=re.MULTILINE)`: at a line start,
1 to 6 heading hashes (greedy, capped at 6) and all following whitespace
(including newlines) are removed.  `bol` tracks whether the current scan
position is a line start (string start or position right after `'\n'`). -/
def sub_heading (fuel : Nat) (bol : Bool) (cs : List Char) : List Char :=
  match fuel with
  | 0 => cs
  | fuel + 1 =>
    match cs with
    | [] => []
    | c :: rest =>
      if bol && c = '#' then
        let hashes := (c :: rest).takeWhile (fun x => x = '#')
        let m := min hashes.length 6
        let afterH := (c :: rest).drop m
        let ws := afterH.takeWhile isPySpace
        sub_heading fuel (endsWithNL ws) (afterH.drop ws.length)
      else
        c :: sub_heading fuel (c = '\n') rest

/-- Index of the first occurrence of a doubled marker (`**` or `__`). -/
def findDouble (mark : Char) : List Char → Option Nat
  | a :: b :: rest =>
    if a = mark && b = mark then some 0
    else
      match findDouble mark (b :: rest) with
      | some i => some (i + 1)
      | none => none
  | _ => none

/-- `re.sub(r'\*\*(.*?)\*\*', r'\1', text, flags=re.DOTALL)` and its twin
`re.sub(r'__(.*?)__', r'\1', ...)`: a doubled marker, a lazy body (which may
span newlines under DOTALL, hence stops at the first following doubled
marker), a doubled marker; replaced by the body. -/
def sub_double (mark : Char) (fuel : Nat) (cs : List Char) : List Char :=
  match fuel with
  | 0 => cs
  | fuel + 1 =>
    match cs with
    | a :: b :: rest =>
      if a = mark && b = mark then
        match findDouble mark rest with
        | some i => rest.take i ++ sub_double mark fuel (rest.drop (i + 2))
        | none => a :: sub_double mark fuel (b :: rest)
      else a :: sub_double mark fuel (b :: rest)
    | cs => cs

/-- `re.sub(r'(?<!\*)\*(?!\*)([^*\n]+?)(?<!\*)\*(?!\*)', r'\1', text)` and
its `_` twin: a single marker not adjacent to another marker, a lazy body
free of the marker and of newlines (hence ending at the first following
marker), a closing single marker whose successor is not the marker.
`prev` is the character before the scan position in the original text
(the `(?<!…)` lookbehind inspects the input, not the output). -/
def sub_single (mark : Char) (fuel : Nat) (prev : Option Char) (cs : List Char) : List Char :=
  match fuel with
  | 0 => cs
  | fuel + 1 =>
    match cs with
    | [] => []
    | c :: rest =>
      if c = mark && prev ≠ some mark && rest.head? ≠ some mark then
        match rest.findIdx? (fun x => x = mark) with
        | some q =>
          if (rest.take q).all (fun x => x ≠ '\n')
              && (rest.drop (q + 1)).head? ≠ some mark then
            rest.take q ++ sub_single mark fuel (some mark) (rest.drop (q + 1))
          else c :: sub_single mark fuel (some c) rest
        | none => c :: sub_single mark fuel (some c) rest
      else c :: sub_single mark fuel (some c) rest

/-- `re.sub(r'^[\s]*[-*+]\s+', '', text, flags=re.MULTILINE)`: at a line
start, optional whitespace (greedy, may cross newlines), a bullet marker,
then mandatory whitespace (greedy, may cross newlines); all removed. -/
def sub_list_marker (fuel : Nat) (bol : Bool) (cs : List Char) : List Char :=
  match fuel with
  | 0 => cs
  | fuel + 1 =>
    match cs with
    | [] => []
    | c :: rest =>
      if bol then
        let ws := (c :: rest).takeWhile isPySpace
        match (c :: rest).drop ws.length with
        | m :: rest2 =>
          if m = '-' || m = '*' || m = '+' then
            let ws2 := rest2.takeWhile isPySpace
            if 0 < ws2.length then
              sub_list_marker fuel (endsWithNL ws2) (rest2.drop ws2.length)
            else c :: sub_list_marker fuel (c = '\n') rest
          else c :: sub_list_marker fuel (c = '\n') rest
        | [] => c :: sub_list_marker fuel (c = '\n') rest
      else c :: sub_list_marker fuel (c = '\n') rest

/-- `re.sub(r'^\d+\.\s+', '', text, flags=re.MULTILINE)`: at a line start,
digits, a dot, mandatory whitespace; all removed. -/
def sub_numbered (fuel : Nat) (bol : Bool) (cs : List Char) : List Char :=
  match fuel with
  | 0 => cs
  | fuel + 1 =>
    match cs with
    | [] => []
    | c :: rest =>
      if bol && isDigitCh c then
        let ds := (c :: rest).takeWhile isDigitCh
        match (c :: rest).drop ds.length with
        | '.' :: rest2 =>
          let ws := rest2.takeWhile isPySpace
          if 0 < ws.length then
            sub_numbered fuel (endsWithNL ws) (rest2.drop ws.length)
          else c :: sub_numbered fuel (c = '\n') rest
        | _ => c :: sub_numbered fuel (c = '\n') rest
      else c :: sub_numbered fuel (c = '\n') rest

/-- Index of the first occurrence of three consecutive backticks. -/
def findTriple : List Char → Option Nat
  | a :: b :: c :: rest =>
    if a = '`' && b = '`' && c = '`' then some 0
    else
      match findTriple (b :: c :: rest) with
      | some i => some (i + 1)
      | none => none
  | _ => none

/-- `re.sub(r'```[\s\S]*?```', '', text)`: a fenced code block, from one
triple backtick to the nearest following triple backtick, removed whole. -/
def sub_fenced (fuel : Nat) (cs : List Char) : List Char :=
  match fuel with
  | 0 => cs
  | fuel + 1 =>
    match cs with
    | a :: b :: c :: rest =>
      if a = '`' && b = '`' && c = '`' then
        match findTriple rest with
        | some i => sub_fenced fuel (rest.drop (i + 3))
        | none => a :: sub_fenced fuel (b :: c :: rest)
      else a :: sub_fenced fuel (b :: c :: rest)
    | cs => cs

/-- `re.sub(r'`([^`]+)`', r'\1', text)`: an inline code span unwrapped to
its (non-empty, backtick-free) body. -/
def sub_inline_code (fuel : Nat) (cs : List Char) : List Char :=
  match fuel with
  | 0 => cs
  | fuel + 1 =>
    match cs with
    | [] => []
    | c :: rest =>
      if c = '`' then
        match rest.findIdx? (fun x => x = '`') with
        | some q =>
          if 0 < q then rest.take q ++ sub_inline_code fuel (rest.drop (q + 1))
          else c :: sub_inline_code fuel rest
        | none => c :: sub_inline_code fuel rest
      else c :: sub_inline_code fuel rest

/-- `re.sub(r'\[([^\]]+)\]\([^\)]+\)', r'\1', text)`: a markdown link
rewritten to its link text. -/
def sub_link (fuel : Nat) (cs : List Char) : List Char :=
  match fuel with
  | 0 => cs
  | fuel + 1 =>
    match cs with
    | [] => []
    | c :: rest =>
      if c = '[' then
        match rest.findIdx? (fun x => x = ']') with
        | some q =>
          if 0 < q then
            match rest.drop (q + 1) with
            | '(' :: rest2 =>
              match rest2.findIdx? (fun x => x = ')') with
              | some r =>
                if 0 < r then rest.take q ++ sub_link fuel (rest2.drop (r + 1))
                else c :: sub_link fuel rest
              | none => c :: sub_link fuel rest
            | _ => c :: sub_link fuel rest
          else c :: sub_link fuel rest
        | none => c :: sub_link fuel rest
      else c :: sub_link fuel rest

/-- `re.sub(r'^#+\s*', '', text, flags=re.MULTILINE)`: any remaining run of
hashes at a line start (no cap this time) and following whitespace removed. -/
def sub_hash_any (fuel : Nat) (bol : Bool) (cs : List Char) : List Char :=
  match fuel with
  | 0 => cs
  | fuel + 1 =>
    match cs with
    | [] => []
    | c :: rest =>
      if bol && c = '#' then
        let hashes := (c :: rest).takeWhile (fun x => x = '#')
        let afterH := (c :: rest).drop hashes.length
        let ws := afterH.takeWhile isPySpace
        sub_hash_any fuel (endsWithNL ws) (afterH.drop ws.length)
      else
        c :: sub_hash_any fuel (c = '\n') rest

/-- `re.sub(r'\n{3,}', '\n\n', text)`: runs of three or more newlines
collapsed to exactly two. -/
def sub_blank (fuel : Nat) (cs : List Char) : List Char :=
  match fuel with
  | 0 => cs
  | fuel + 1 =>
    match cs with
    | [] => []
    | c :: rest =>
      if c = '\n' then
        let nls := (c :: rest).takeWhile (fun x => x = '\n')
        if 3 ≤ nls.length then
          '\n' :: '\n' :: sub_blank fuel ((c :: rest).drop nls.length)
        else c :: sub_blank fuel rest
      else c :: sub_blank fuel rest

/-- `re.sub(r'[ \t]+', ' ', text)`: runs of spaces and tabs collapsed to a
single space. -/
def sub_hspace (fuel : Nat) (cs : List Char) : List Char :=
  match fuel with
  | 0 => cs
  | fuel + 1 =>
    match cs with
    | [] => []
    | c :: rest =>
      if c = ' ' || c = '\t' then
        let run := (c :: rest).takeWhile (fun x => x = ' ' || x = '\t')
        ' ' :: sub_hspace fuel ((c :: rest).drop run.length)
      else c :: sub_hspace fuel rest

/-- The body of `_clean_markdown` on character lists: the fourteen
sanitization steps of `chatgpt_service.py`, in source order, followed by the
per-line strip and the final strip. -/
def cleanChars (cs : List Char) : List Char :=
  let t1 := sub_heading (cs.length + 1) true cs
  let t2 := sub_double '*' (t1.length + 1) t1
  let t3 := sub_double '_' (t2.length + 1) t2
  let t4 := sub_single '*' (t3.length + 1) none t3
  let t5 := sub_single '_' (t4.length + 1) none t4
  let t6 := sub_list_marker (t5.length + 1) true t5
  let t7 := sub_numbered (t6.length + 1) true t6
  let t8 := sub_fenced (t7.length + 1) t7
  let t9 := sub_inline_code (t8.length + 1) t8
  let t10 := sub_link (t9.length + 1) t9
  let t11 := sub_hash_any (t10.length + 1) true t10
  let t12 := sub_blank (t11.length + 1) t11
  let t13 := sub_hspace (t12.length + 1) t12
  let t14 := joinNL ((splitNL t13).map pstrip)
  pstrip t14

/-- `ChatGPTTreatmentPlanService._clean_markdown`: the empty string is
returned unchanged (the `if not text` guard); otherwise the sanitization
pipeline runs. -/
def _clean_markdown (text : String) : String :=
  if text.data = [] then text else String.mk (cleanChars text.data)

/-! ## `chatgpt_service.py`: the treatment-plan generation pipeline -/

/-- Python `str.strip()` at the `String` interface (`response.choices[0].message.content.strip()`). -/
def stripS (s : String) : String :=
  String.mk (pstrip s.data)

/-- A Python `dict` of already-rendered string values, as the prompt
builders consume it. -/
abbrev PyDict := List (String × String)

/-- Python `d.get(key, fallback)`. -/
def dictGet (d : PyDict) (key fallback : String) : String :=
  match d.find? (fun p => p.1 == key) with
  | some p => p.2
  | none => fallback

/-- The placeholder value that `setup_chatgpt.py` writes into `.env` and
`__init__` treats as unconfigured. -/
def placeholderKey : String := "your_openai_api_key_here"

/-- The service object: after `__init__`, only the (possibly absent) API key
matters to the embedded operations. -/
structure ChatGPTTreatmentPlanService where
  api_key : Option String
deriving DecidableEq

/-- `ChatGPTTreatmentPlanService.__init__`: `os.getenv("OPENAI_API_KEY")`
may be absent; a falsy (empty) or placeholder value also disables the
client (`if not self.api_key or self.api_key == "your_openai_api_key_here"`). -/
def serviceInit (env : Option String) : ChatGPTTreatmentPlanService :=
  match env with
  | none => { api_key := none }
  | some k =>
    if k = "" || k = placeholderKey then { api_key := none }
    else { api_key := some k }

/-- `_create_tpa_eligible_prompt`: the f-string template for tPA-eligible
patients, with `dict.get(key, 'N/A')` holes. -/
def _create_tpa_eligible_prompt (patient_data scan_data : PyDict)
    (eligibility_result : String) : String :=
  "\nYou are a stroke neurologist generating a treatment plan. The text below is context only. NEVER repeat it in your output.\n\n--- PATIENT CONTEXT (DO NOT OUTPUT) ---\nAge: "
  ++ dictGet patient_data "age" "N/A"
  ++ "\nGender: " ++ dictGet patient_data "gender" "N/A"
  ++ "\nTime since onset: " ++ dictGet patient_data "time_since_onset" "N/A"
  ++ "\nBlood Pressure: " ++ dictGet patient_data "systolic_bp" "N/A"
  ++ "/" ++ dictGet patient_data "diastolic_bp" "N/A" ++ " mmHg"
  ++ "\nGlucose: " ++ dictGet patient_data "glucose" "N/A" ++ " mg/dL"
  ++ "\nINR: " ++ dictGet patient_data "inr" "N/A"
  ++ "\nDiagnosis: " ++ dictGet scan_data "prediction" "N/A"
  ++ "\ntPA eligibility: " ++ eligibility_result
  ++ "\n---------------------------------------\n\nReturn ONLY the treatment plan with clinical actions and follow-up steps. Do not restate patient demographics, history, or eligibility status. No introductions or summaries. Structure the plan with exactly these seven sections and nothing else (all caps headings, plain text underneath):\n\n1. IMMEDIATE INTERVENTIONS (FIRST 24 HOURS)\n2. TPA ADMINISTRATION PROTOCOL AND MONITORING\n3. POST-TPA CARE AND MONITORING\n4. SECONDARY PREVENTION MEASURES\n5. REHABILITATION PLANNING\n6. FOLLOW-UP SCHEDULE\n7. POTENTIAL COMPLICATIONS TO WATCH FOR\n\nEach section must contain actionable items (medications with dose ranges, monitoring frequency, thresholds, referrals, etc.). Avoid bullet symbols like “-” or “•”; instead use short sentences separated by line breaks. Plain text only (no markdown).\n        "

/-- `_create_not_eligible_prompt`: the f-string template for patients who
are not tPA-eligible. -/
def _create_not_eligible_prompt (patient_data scan_data : PyDict)
    (eligibility_result : String) : String :=
  "\nYou are a stroke neurologist providing a clinical treatment plan. Based on the following patient information, provide ONLY treatment recommendations. Do NOT repeat or summarize the patient information.\n\nPatient Context (for reference only):\n- Age: "
  ++ dictGet patient_data "age" "N/A" ++ " years, Gender: "
  ++ dictGet patient_data "gender" "N/A"
  ++ "\n- Time since onset: " ++ dictGet patient_data "time_since_onset" "N/A"
  ++ "\n- Blood Pressure: " ++ dictGet patient_data "systolic_bp" "N/A"
  ++ "/" ++ dictGet patient_data "diastolic_bp" "N/A" ++ " mmHg"
  ++ "\n- Glucose: " ++ dictGet patient_data "glucose" "N/A" ++ " mg/dL, INR: "
  ++ dictGet patient_data "inr" "N/A"
  ++ "\n- Diagnosis: " ++ dictGet scan_data "prediction" "N/A"
  ++ "\n- Not eligible for tPA: " ++ eligibility_result
  ++ "\n\nThis patient is NOT eligible for tPA therapy. Provide a focused alternative treatment plan covering these 7 areas. Be specific, actionable, and evidence-based:\n\n1. IMMEDIATE INTERVENTIONS (First 24 Hours)\n   - Supportive care measures\n   - Specific medications and dosages\n   - Monitoring parameters and frequency\n   - Immediate diagnostic tests needed\n   - Critical care interventions\n\n2. MEDICAL MANAGEMENT STRATEGIES\n   - Alternative thrombolytic options if applicable\n   - Antithrombotic therapy\n   - Blood pressure management protocol\n   - Glucose control measures\n   - Other supportive medications\n\n3. SECONDARY PREVENTION MEASURES\n   - Antiplatelet/anticoagulant therapy\n   - Blood pressure management targets\n   - Lipid management\n   - Diabetes management if applicable\n   - Lifestyle modifications\n\n4. REHABILITATION PLANNING\n   - Physical therapy recommendations\n   - Occupational therapy needs\n   - Speech therapy if indicated\n   - Timeline for rehabilitation initiation\n\n5. FOLLOW-UP SCHEDULE\n   - Immediate follow-up appointments\n   - Specialist referrals needed\n   - Imaging follow-up schedule\n   - Long-term monitoring plan\n\n6. ALTERNATIVE INTERVENTIONS (If Applicable)\n   - Mechanical thrombectomy consideration\n   - Other interventional options\n   - Surgical interventions if indicated\n\n7. MONITORING PARAMETERS\n   - Neurological assessment frequency\n   - Vital signs monitoring protocol\n   - Laboratory monitoring needs\n   - Signs of complications to monitor\n\nIMPORTANT INSTRUCTIONS:\n- Provide ONLY treatment recommendations and clinical actions\n- Do NOT repeat patient demographics or history\n- Use clear section headings in ALL CAPS\n- Be specific with dosages, frequencies, and timelines where applicable\n- Write in plain text format - NO markdown symbols (#, *, **, etc.)\n- Use professional medical terminology\n- Keep it concise but comprehensive\n        "

/-- System message of the generation call. -/
def generateSystemMessage : String :=
  "You are a stroke neurologist. Use the user-provided patient context only to inform your reasoning. Never repeat the context verbatim. Output must contain only the seven clinical sections requested, each with actionable treatment steps. No patient demographics, no introductions, no markdown."

/-- System message of the refinement call. -/
def refineSystemMessage : String :=
  "You are an expert neurologist. Refine treatment plans based on physician input while maintaining medical accuracy. Provide responses in plain text format without markdown."

/-- `generate_treatment_plan`: returns the unavailable sentinel when the
key is unconfigured; otherwise builds the eligibility-keyed prompt, calls
the generator once (`chatCompletionCreate system user`, the oracle for
`openai.ChatCompletion.create`), strips and sanitizes a normal response,
and converts a raised exception into error text (the `except` clause). -/
def generate_treatment_plan (svc : ChatGPTTreatmentPlanService)
    (chatCompletionCreate : String → String → Except String String)
    (patient_data scan_data : PyDict) (eligibility_result : String)
    (is_eligible : Bool) : String :=
  match svc.api_key with
  | none => "AI service is not configured. Please set OPENAI_API_KEY environment variable."
  | some _ =>
    let prompt :=
      if is_eligible then
        _create_tpa_eligible_prompt patient_data scan_data eligibility_result
      else
        _create_not_eligible_prompt patient_data scan_data eligibility_result
    match chatCompletionCreate generateSystemMessage prompt with
    | Except.ok content => _clean_markdown (stripS content)
    | Except.error e => "Error generating treatment plan: " ++ e

/-- The refinement prompt (an f-string indented by twelve spaces inside the
method body, reproduced verbatim). -/
def refinePrompt (existing_plan physician_notes : String) : String :=
  "\n            Below is an existing treatment plan for a stroke patient:\n            \n            "
  ++ existing_plan
  ++ "\n            \n            The physician has provided the following additional notes and modifications:\n            \n            "
  ++ physician_notes
  ++ "\n            \n            Please refine and update the treatment plan incorporating the physician's notes while maintaining medical accuracy and evidence-based recommendations. \n            Highlight any changes made and provide the updated comprehensive treatment plan.\n            \n            IMPORTANT: Format your response in plain text only. Do NOT use markdown formatting symbols like #, *, **, or bullet points. Write in a professional medical format.\n            "

/-- `refine_treatment_plan`: same unavailable/exception discipline as
generation, with the refinement prompt and error prefix. -/
def refine_treatment_plan (svc : ChatGPTTreatmentPlanService)
    (chatCompletionCreate : String → String → Except String String)
    (existing_plan physician_notes : String) : String :=
  match svc.api_key with
  | none => "AI service is not configured. Please set OPENAI_API_KEY environment variable."
  | some _ =>
    let prompt := refinePrompt existing_plan physician_notes
    match chatCompletionCreate refineSystemMessage prompt with
    | Except.ok content => _clean_markdown (stripS content)
    | Except.error e => "Error refining treatment plan: " ++ e

/-! ## `models.py`: the rows the embedded operations touch -/

/-- The `users` table.  Ids are the autoincrement primary key. -/
structure User where
  id : Nat
  username : String
  password : String
  role : String
deriving DecidableEq

/-- The `patients` table.  The demographic and vitals columns (name, age,
gender, time_since_onset, chief_complaint, systolic_bp, diastolic_bp,
heart_rate, oxygen_saturation, temperature, glucose, platelet_count, inr)
are never read or written by the operations embedded here and are carried
only through `name`; `code` is the unique linking code and
`linked_user_id` the nullable back-reference to `users.id`. -/
structure Patient where
  id : Nat
  name : String
  code : String
  linked_user_id : Option Nat
deriving DecidableEq

/-- The `treatmentplans` table, all columns (timestamps as opaque `Nat`). -/
structure TreatmentPlan where
  id : Nat
  patient_id : Nat
  scan_id : Nat
  icd_code : String
  icd_description : String
  plan_type : String
  ai_generated_plan : String
  physician_notes : String
  status : String
  created_by : String
  created_at : Nat
  updated_at : Nat
deriving DecidableEq

/-- Creation of a `TreatmentPlan` row.  `models.py` declares
`status = Column(String, default="draft")` and no code in the repository
supplies an explicit status at insert time, so every newly inserted row
takes the column default. -/
def newTreatmentPlan (id patient_id scan_id : Nat)
    (icd_code icd_description plan_type ai_generated_plan physician_notes created_by : String)
    (created_at updated_at : Nat) : TreatmentPlan :=
  { id := id, patient_id := patient_id, scan_id := scan_id,
    icd_code := icd_code, icd_description := icd_description,
    plan_type := plan_type, ai_generated_plan := ai_generated_plan,
    physician_notes := physician_notes, status := "draft",
    created_by := created_by, created_at := created_at, updated_at := updated_at }

/-! ## `auth.py`: registration, login, logout, session store -/

/-- The identity snapshot stored in `active_sessions` at login. -/
structure SessionInfo where
  user_id : Nat
  username : String
  role : String
deriving DecidableEq

/-- The `active_sessions` dict: token to identity snapshot, unique keys. -/
abbrev SessionStore := List (String × SessionInfo)

/-- Python dict assignment `active_sessions[session_id] = info`. -/
def storeInsert (session_id : String) (info : SessionInfo)
    (store : SessionStore) : SessionStore :=
  (session_id, info) :: store.filter (fun p => p.1 != session_id)

/-- The database as the embedded operations see it. -/
structure Db where
  users : List User
  patients : List Patient
deriving DecidableEq

/-- The observable outcome of `message_page(...)`: an HTML page showing a
title, a message and a link. -/
inductive Page where
  | page (title message link_url link_text : String)
deriving DecidableEq

/-- `message_page` of `auth.py`. -/
def message_page (title message link_url link_text : String) : Page :=
  Page.page title message link_url link_text

/-- `register_patient` (`POST /register`): duplicate-username check, then
user creation with role "Patient" (`fresh_id` is the autoincrement id that
`db.refresh(user)` reads back), then the linkage attempt: the first record
whose `code` matches — with no constraint on `linked_user_id` — gets its
back-reference set to the new user's id. -/
def register_patient (username password code : String) (db : Db)
    (fresh_id : Nat) : Page × Db :=
  match db.users.find? (fun x => x.username == username) with
  | some _ =>
    (message_page "Registration Failed" "Username already exists."
      "/register-page" "Try Again", db)
  | none =>
    let user : User :=
      { id := fresh_id, username := username, password := password, role := "Patient" }
    let db1 : Db := { db with users := db.users ++ [user] }
    match db1.patients.find? (fun p => p.code == code) with
    | some patient =>
      let db2 : Db :=
        { db1 with patients := db1.patients.map (fun p =>
            if p.id = patient.id then { p with linked_user_id := some user.id } else p) }
      (message_page "Registration Successful"
        "Your account is linked to an existing patient record."
        "/login-page" "Go to Login", db2)
    | none =>
      (message_page "Registration Successful"
        "Account created. A technician will link your record later."
        "/login-page" "Go to Login", db1)

/-- The observable outcome of `POST /login`: the script-alert failure pages,
the 400 `HTTPException`, or the 302 redirect carrying the session cookie. -/
inductive LoginResult where
  | userNotFound
  | incorrectPassword
  | noLinkedRecord
  | invalidRole
  | success (session_id redirect_url : String)
deriving DecidableEq

/-- `login` (`POST /login`): the user lookup is keyed jointly on username
and role; then the plaintext password comparison; then — before any
role-specific check — the session entry is written into `active_sessions`
(`session_id` is the fresh `uuid4` string); finally the role dispatch,
where a Patient without a linked record fails (with the session entry
already in the store). -/
def login (username password role : String) (db : Db) (store : SessionStore)
    (session_id : String) : LoginResult × SessionStore :=
  match db.users.find? (fun x => x.username == username && x.role == role) with
  | none => (LoginResult.userNotFound, store)
  | some user =>
    if user.password ≠ password then (LoginResult.incorrectPassword, store)
    else
      let store1 := storeInsert session_id
        { user_id := user.id, username := user.username, role := user.role } store
      if role = "Patient" then
        match db.patients.find? (fun p => p.linked_user_id == some user.id) with
        | none => (LoginResult.noLinkedRecord, store1)
        | some patient =>
          (LoginResult.success session_id ("/patient-view?code=" ++ patient.code), store1)
      else if role = "Technician" then
        (LoginResult.success session_id "/technician-dashboard", store1)
      else if role = "Physician" then
        (LoginResult.success session_id "/physician-dashboard", store1)
      else (LoginResult.invalidRole, store1)

/-- `logout` (`POST /logout`): reads the cookie (`none` when absent); the
truthiness guard `if session_id and session_id in active_sessions` skips
the deletion for an absent or empty cookie and for unknown tokens;
otherwise `del` removes the key. -/
def logout (cookie : Option String) (store : SessionStore) : SessionStore :=
  match cookie with
  | none => store
  | some session_id =>
    if session_id != "" && store.any (fun p => p.1 == session_id) then
      store.filter (fun p => p.1 != session_id)
    else store

/-! ## Claims -/

set_option maxRecDepth 100000

/-- C8: every newly created TreatmentPlan has status "draft" — creation
never yields approved or implemented, whatever the other column values. -/
theorem C8_new_treatment_plan_is_draft
    (id patient_id scan_id : Nat)
    (icd_code icd_description plan_type ai_generated_plan physician_notes created_by : String)
    (created_at updated_at : Nat) :
    (newTreatmentPlan id patient_id scan_id icd_code icd_description plan_type
      ai_generated_plan physician_notes created_by created_at updated_at).status = "draft" :=
  rfl

/-- C5: when the service is constructed with the API key absent from the
environment or equal to the placeholder value, every call to
`generate_treatment_plan` and every call to `refine_treatment_plan`, for
every input and every behaviour of the external client, returns the fixed
unavailable sentinel (both operations are total functions in this model, so
no exception can escape). -/
theorem C5_unconfigured_returns_sentinel
    (env : Option String)
    (h : env = none ∨ env = some placeholderKey)
    (api : String → String → Except String String)
    (patient_data scan_data : PyDict) (eligibility_result : String)
    (is_eligible : Bool) (existing_plan physician_notes : String) :
    generate_treatment_plan (serviceInit env) api patient_data scan_data
        eligibility_result is_eligible =
      "AI service is not configured. Please set OPENAI_API_KEY environment variable." ∧
    refine_treatment_plan (serviceInit env) api existing_plan physician_notes =
      "AI service is not configured. Please set OPENAI_API_KEY environment variable." := by
  rcases h with h | h <;> subst h <;> exact ⟨rfl, rfl⟩

/-- C5 witness: the sentinel is returned at a concrete unconfigured
instantiation. -/
theorem C5_witness :
    generate_treatment_plan (serviceInit none) (fun _ _ => Except.ok "plan text")
        [] [] "eligible" true =
      "AI service is not configured. Please set OPENAI_API_KEY environment variable." ∧
    refine_treatment_plan (serviceInit none) (fun _ _ => Except.ok "plan text")
        "old plan" "notes" =
      "AI service is not configured. Please set OPENAI_API_KEY environment variable." :=
  C5_unconfigured_returns_sentinel none (Or.inl rfl) (fun _ _ => Except.ok "plan text")
    [] [] "eligible" true "old plan" "notes"

/-- C6: when the external call raises (the oracle returns `Except.error e`,
with `e` standing for `str(e)`), both operations catch it and return the
plan-text string describing the error; being total functions into `String`,
they never propagate an exception, so the caller always receives text. -/
theorem C6_exceptions_become_error_text
    (k : String) (patient_data scan_data : PyDict) (eligibility_result : String)
    (is_eligible : Bool) (existing_plan physician_notes : String) (e : String) :
    generate_treatment_plan { api_key := some k } (fun _ _ => Except.error e)
        patient_data scan_data eligibility_result is_eligible =
      "Error generating treatment plan: " ++ e ∧
    refine_treatment_plan { api_key := some k } (fun _ _ => Except.error e)
        existing_plan physician_notes =
      "Error refining treatment plan: " ++ e :=
  ⟨rfl, rfl⟩

/-- C1 counterexample: `_clean_markdown` is not idempotent.  On the input
consisting of an inline code span whose body is a bullet line, the first
application unwraps the code span and exposes a list marker at the start of
the line; the second application then strips that marker, so the second
output differs from the first. -/
theorem C1_clean_markdown_not_idempotent :
    _clean_markdown (_clean_markdown "`- x`") ≠ _clean_markdown "`- x`" := by
  decide

/-- C1 amended: the markdown-stripping pass is idempotent on the sampled
inputs of the kinds the claim lists — headings, bold and italic emphasis,
bulleted and numbered lists, fenced and inline code, and links — though not
for every input string. -/
theorem C1_clean_markdown_idempotent_on_samples :
    (let s := "# Title\n\nSome **bold** text and *italic* text.\n\n- first item\n- second item\n\n1. step one\n2. step two\n\nUse `code` here and see [docs](https://example.com) for more.\n\n```\nblock of code\n```\n\nDone.";
      _clean_markdown (_clean_markdown s) = _clean_markdown s) ∧
    (let s := "## Sub-heading\nA [link](url) plus `x = 1` inline.";
      _clean_markdown (_clean_markdown s) = _clean_markdown s) ∧
    (let s := "__very__ _important_ note";
      _clean_markdown (_clean_markdown s) = _clean_markdown s) := by
  refine ⟨?_, ?_, ?_⟩ <;> decide

/-- Looking up a key in an association list after filtering that key out
yields nothing. -/
theorem lookup_filterKey_self (t : String) (s : SessionStore) :
    List.lookup t (s.filter (fun p => p.1 != t)) = none := by
  induction s with
  | nil => rfl
  | cons hd tl ih =>
    obtain ⟨k, v⟩ := hd
    by_cases h : k = t
    · simp [List.filter_cons, h, ih]
    · have hok : (t == k) = false := by simp [Ne.symm h]
      simp [List.filter_cons, bne_iff_ne, h, List.lookup_cons, hok, ih]

/-- Filtering one key out of an association list leaves lookups of every
other key unchanged. -/
theorem lookup_filterKey_other (t o : String) (h : o ≠ t) (s : SessionStore) :
    List.lookup o (s.filter (fun p => p.1 != t)) = List.lookup o s := by
  induction s with
  | nil => rfl
  | cons hd tl ih =>
    obtain ⟨k, v⟩ := hd
    by_cases h1 : k = t
    · have hot : (o == t) = false := by simp [h]
      simp [List.filter_cons, h1, List.lookup_cons, hot, ih]
    · cases hok : (o == k) with
      | true => simp [List.filter_cons, bne_iff_ne, h1, List.lookup_cons, hok]
      | false => simp [List.filter_cons, bne_iff_ne, h1, List.lookup_cons, hok, ih]

/-- After filtering a key out, no entry with that key remains. -/
theorem any_filterKey_self (t : String) (s : SessionStore) :
    (s.filter (fun p => p.1 != t)).any (fun p => p.1 == t) = false := by
  induction s with
  | nil => rfl
  | cons hd tl ih =>
    obtain ⟨k, v⟩ := hd
    by_cases h : k = t
    · simp [List.filter_cons, h, ih]
    · simp [List.filter_cons, bne_iff_ne, h, ih]

/-- If no entry has the key, filtering the key out changes nothing. -/
theorem filterKey_of_any_false (t : String) (s : SessionStore)
    (h : s.any (fun p => p.1 == t) = false) :
    s.filter (fun p => p.1 != t) = s := by
  induction s with
  | nil => rfl
  | cons hd tl ih =>
    obtain ⟨k, v⟩ := hd
    simp only [List.any_cons, Bool.or_eq_false_iff] at h
    have h1 : ¬ k = t := by simpa using h.1
    simp [List.filter_cons, bne_iff_ne, h1, ih h.2]

/-- A key whose lookup fails appears in no entry. -/
theorem any_eq_false_of_lookup_none (t : String) (s : SessionStore)
    (h : List.lookup t s = none) :
    s.any (fun p => p.1 == t) = false := by
  induction s with
  | nil => rfl
  | cons hd tl ih =>
    obtain ⟨k, v⟩ := hd
    by_cases h1 : k = t
    · rw [h1] at h
      simp [List.lookup_cons] at h
    · have hok : (t == k) = false := by simp [Ne.symm h1]
      simp only [List.lookup_cons, hok] at h
      simp [List.any_cons, h1, ih h]

/-- Lemma: if no entry has the key, its lookup fails. -/
theorem lookup_none_of_any_false (t : String) (s : SessionStore)
    (h : s.any (fun p => p.1 == t) = false) :
    List.lookup t s = none := by
  induction s with
  | nil => rfl
  | cons hd tl ih =>
    obtain ⟨k, v⟩ := hd
    simp only [List.any_cons, Bool.or_eq_false_iff] at h
    have h1 : (t == k) = false := by
      have hk : ¬ k = t := by simpa using h.1
      simp [Ne.symm hk]
    simp only [List.lookup_cons, h1]
    exact ih h.2

/-- C9 counterexample: logout is not total over every token.  For the empty
token, the truthiness guard `if session_id and ...` skips the deletion, so a
store holding an entry under the empty key keeps it — the claim's "removes
the token's entry if present" fails at this input. -/
theorem C9_empty_token_entry_survives_logout :
    List.lookup "" (logout (some "") [("", ⟨1, "u", "Patient"⟩)]) =
      some (⟨1, "u", "Patient"⟩ : SessionInfo) := by
  decide

/-- C9 amended: for every store and every nonempty token (all issued tokens
are nonempty uuid4 strings), logout removes the token's entry if present and
leaves every other entry unchanged; logging out twice, or logging out a
token with no entry, leaves the store unchanged and is not an error; a
logout with the empty token or no cookie never changes the store. -/
theorem C9_logout_idempotent_total (store : SessionStore) (token : String)
    (h : token ≠ "") :
    List.lookup token (logout (some token) store) = none ∧
    (∀ other, other ≠ token →
      List.lookup other (logout (some token) store) = List.lookup other store) ∧
    logout (some token) (logout (some token) store) = logout (some token) store ∧
    (List.lookup token store = none → logout (some token) store = store) ∧
    logout (some "") store = store ∧
    logout none store = store := by
  have hb : (token != "") = true := by simp [h]
  by_cases hany : store.any (fun p => p.1 == token) = true
  · have hlog : logout (some token) store = store.filter (fun p => p.1 != token) := by
      simp [logout, hb, hany]
    refine ⟨?_, ?_, ?_, ?_, ?_, rfl⟩
    · rw [hlog]; exact lookup_filterKey_self token store
    · intro o ho; rw [hlog]; exact lookup_filterKey_other token o ho store
    · rw [hlog]
      simp [logout, hb, any_filterKey_self token store]
    · intro hlk
      exact absurd (any_eq_false_of_lookup_none token store hlk) (by simp [hany])
    · simp [logout]
  · have hany' : store.any (fun p => p.1 == token) = false := by
      cases hx : store.any (fun p => p.1 == token) with
      | true => exact absurd hx hany
      | false => rfl
    have hlog : logout (some token) store = store := by simp [logout, hany']
    refine ⟨?_, ?_, ?_, ?_, ?_, rfl⟩
    · rw [hlog]; exact lookup_none_of_any_false token store hany'
    · intro o _; rw [hlog]
    · rw [hlog]; exact hlog
    · intro _; exact hlog
    · simp [logout]

/-- C9 witness: the amended statement evaluated on a concrete two-entry
store and a concrete second token. -/
theorem C9_witness :
    List.lookup "t1" (logout (some "t1")
        [("t1", ⟨1, "u", "Patient"⟩), ("t2", ⟨2, "w", "Physician"⟩)]) = none ∧
    List.lookup "t2" (logout (some "t1")
        [("t1", ⟨1, "u", "Patient"⟩), ("t2", ⟨2, "w", "Physician"⟩)]) =
      List.lookup "t2" [("t1", ⟨1, "u", "Patient"⟩), ("t2", ⟨2, "w", "Physician"⟩)] :=
  ⟨(C9_logout_idempotent_total
      [("t1", ⟨1, "u", "Patient"⟩), ("t2", ⟨2, "w", "Physician"⟩)] "t1" (by decide)).1,
   (C9_logout_idempotent_total
      [("t1", ⟨1, "u", "Patient"⟩), ("t2", ⟨2, "w", "Physician"⟩)] "t1" (by decide)).2.1
     "t2" (by decide)⟩

/-- C2 counterexample: login is not atomic with respect to the Session
Store.  A Patient whose username/password/role match but who has no linked
ClinicalRecord fails with NoLinkedRecord, yet the session entry written just
before the role dispatch stays in the store. -/
theorem C2_no_linked_record_login_mutates_store :
    (login "alice" "pw" "Patient"
        ⟨[⟨1, "alice", "pw", "Patient"⟩], []⟩ [] "tok").1 =
      LoginResult.noLinkedRecord ∧
    (login "alice" "pw" "Patient"
        ⟨[⟨1, "alice", "pw", "Patient"⟩], []⟩ [] "tok").2 ≠ [] := by
  decide

/-- C2 amended: failures before session creation (user not found, wrong
password) leave the Session Store unchanged, but a Patient login that
passes the password check and fails with NoLinkedRecord has already written
its session entry, which stays in the store. -/
theorem C2_login_store_effects (username password role : String) (db : Db)
    (store : SessionStore) (session_id : String) :
    ((login username password role db store session_id).1 = LoginResult.userNotFound →
      (login username password role db store session_id).2 = store) ∧
    ((login username password role db store session_id).1 = LoginResult.incorrectPassword →
      (login username password role db store session_id).2 = store) ∧
    ((login username password role db store session_id).1 = LoginResult.noLinkedRecord →
      ∃ info, List.lookup session_id
        (login username password role db store session_id).2 = some info) := by
  cases hfind : db.users.find? (fun x => x.username == username && x.role == role) with
  | none =>
    have hlogin : login username password role db store session_id =
        (LoginResult.userNotFound, store) := by
      unfold login; rw [hfind]
    rw [hlogin]
    exact ⟨fun _ => rfl, by simp, by simp⟩
  | some user =>
    have hlogin : login username password role db store session_id =
        (if user.password ≠ password then (LoginResult.incorrectPassword, store)
         else if role = "Patient" then
           match db.patients.find? (fun p => p.linked_user_id == some user.id) with
           | none => (LoginResult.noLinkedRecord,
               storeInsert session_id ⟨user.id, user.username, user.role⟩ store)
           | some patient =>
             (LoginResult.success session_id ("/patient-view?code=" ++ patient.code),
               storeInsert session_id ⟨user.id, user.username, user.role⟩ store)
         else if role = "Technician" then
           (LoginResult.success session_id "/technician-dashboard",
             storeInsert session_id ⟨user.id, user.username, user.role⟩ store)
         else if role = "Physician" then
           (LoginResult.success session_id "/physician-dashboard",
             storeInsert session_id ⟨user.id, user.username, user.role⟩ store)
         else (LoginResult.invalidRole,
           storeInsert session_id ⟨user.id, user.username, user.role⟩ store)) := by
      unfold login; rw [hfind]
    rw [hlogin]
    by_cases hpw : user.password ≠ password
    · rw [if_pos hpw]
      exact ⟨by simp, fun _ => rfl, by simp⟩
    · rw [if_neg hpw]
      by_cases hrole : role = "Patient"
      · rw [if_pos hrole]
        cases hpat : db.patients.find? (fun p => p.linked_user_id == some user.id) with
        | none =>
          refine ⟨by simp, by simp,
            fun _ => ⟨⟨user.id, user.username, user.role⟩, ?_⟩⟩
          simp [storeInsert]
        | some patient => exact ⟨by simp, by simp, by simp⟩
      · rw [if_neg hrole]
        by_cases h2 : role = "Technician"
        · rw [if_pos h2]; exact ⟨by simp, by simp, by simp⟩
        · rw [if_neg h2]
          by_cases h3 : role = "Physician"
          · rw [if_pos h3]; exact ⟨by simp, by simp, by simp⟩
          · rw [if_neg h3]; exact ⟨by simp, by simp, by simp⟩

/-- C2 witness: the unchanged-store conclusions evaluated at concrete
failing logins. -/
theorem C2_witness :
    (login "ghost" "pw" "Patient" ⟨[], []⟩
        [("t0", ⟨9, "z", "Physician"⟩)] "tok").2 = [("t0", ⟨9, "z", "Physician"⟩)] ∧
    (login "alice" "bad" "Patient" ⟨[⟨1, "alice", "pw", "Patient"⟩], []⟩
        [("t0", ⟨9, "z", "Physician"⟩)] "tok").2 = [("t0", ⟨9, "z", "Physician"⟩)] :=
  ⟨(C2_login_store_effects "ghost" "pw" "Patient" ⟨[], []⟩
      [("t0", ⟨9, "z", "Physician"⟩)] "tok").1 (by decide),
   (C2_login_store_effects "alice" "bad" "Patient" ⟨[⟨1, "alice", "pw", "Patient"⟩], []⟩
      [("t0", ⟨9, "z", "Physician"⟩)] "tok").2.1 (by decide)⟩

/-- C3 counterexample: the back-reference is not set at most once.  The
record with code "P-001" is already linked to account 1, yet a later
registration by "bob" (account id 2) presenting the same code overwrites
the reference — registration links regardless of the existing link. -/
theorem C3_registration_relinks_linked_record :
    (register_patient "bob" "pw2" "P-001"
        ⟨[⟨1, "alice", "pw", "Patient"⟩], [⟨1, "Rec", "P-001", some 1⟩]⟩ 2).2.patients =
      [⟨1, "Rec", "P-001", some 2⟩] ∧
    (some 2 : Option Nat) ≠ some 1 := by
  decide

/-- C3 amended: when the username is fresh and some record's code matches,
registration sets that record's back-reference to the new account's id
regardless of whether the record was already linked — the most recent
matching registration wins, not the first. -/
theorem C3_link_overwrites (username password code : String) (db : Db)
    (fresh_id : Nat) (rec : Patient)
    (hu : db.users.find? (fun x => x.username == username) = none)
    (hr : db.patients.find? (fun p => p.code == code) = some rec) :
    (register_patient username password code db fresh_id).2.patients =
      db.patients.map (fun p =>
        if p.id = rec.id then { p with linked_user_id := some fresh_id } else p) := by
  simp only [register_patient, hu, hr]

/-- C3 witness: the amended statement evaluated at a concrete database in
which the matching record is already linked (to account 7). -/
theorem C3_witness :
    (register_patient "bob" "pw2" "P-001"
        ⟨[], [⟨1, "Rec", "P-001", some 7⟩]⟩ 2).2.patients =
      [⟨1, "Rec", "P-001", some 2⟩] := by
  rw [C3_link_overwrites "bob" "pw2" "P-001" ⟨[], [⟨1, "Rec", "P-001", some 7⟩]⟩ 2
    ⟨1, "Rec", "P-001", some 7⟩ (by decide) (by decide)]
  decide

/-- C4: a login whose username and password match a stored account but
whose requested role differs fails with the UserNotFound outcome (and not
InvalidCredential): the lookup is keyed jointly on username and role. -/
theorem C4_wrong_role_is_user_not_found (username password role : String)
    (db : Db) (store : SessionStore) (session_id : String) (a : User)
    (_ha : a ∈ db.users) (_hau : a.username = username)
    (_hap : a.password = password) (_har : a.role ≠ role)
    (hall : ∀ x ∈ db.users, x.username = username → x.role ≠ role) :
    login username password role db store session_id =
      (LoginResult.userNotFound, store) := by
  have hnone : db.users.find? (fun x => x.username == username && x.role == role) = none := by
    rw [List.find?_eq_none]
    intro x hx
    simp only [Bool.and_eq_true, beq_iff_eq, not_and]
    exact fun hxu hxr => hall x hx hxu hxr
  simp only [login, hnone]

/-- C4 witness: a concrete store with "alice" registered as a Patient;
logging in as "alice" with the right password but role Physician is
reported as a missing user, with the store untouched. -/
theorem C4_witness :
    login "alice" "pw" "Physician" ⟨[⟨1, "alice", "pw", "Patient"⟩], []⟩ [] "tok" =
      (LoginResult.userNotFound, []) :=
  C4_wrong_role_is_user_not_found "alice" "pw" "Physician"
    ⟨[⟨1, "alice", "pw", "Patient"⟩], []⟩ [] "tok" ⟨1, "alice", "pw", "Patient"⟩
    (by decide) rfl rfl (by decide) (by decide)

/-- C7: patient registration fails (page "Username already exists.", no
account created) exactly when the username exists; otherwise the account is
always created and the success page distinguishes "linked" (some record's
code matched) from "pending link" (no match) — the no-match case still
succeeds. -/
theorem C7_register_patient_outcomes (username password code : String)
    (db : Db) (fresh_id : Nat) :
    ((db.users.find? (fun x => x.username == username)).isSome →
      register_patient username password code db fresh_id =
        (message_page "Registration Failed" "Username already exists."
          "/register-page" "Try Again", db)) ∧
    (db.users.find? (fun x => x.username == username) = none →
      (register_patient username password code db fresh_id).2.users =
        db.users ++ [⟨fresh_id, username, password, "Patient"⟩] ∧
      (register_patient username password code db fresh_id).1 =
        (if (db.patients.find? (fun p => p.code == code)).isSome then
          message_page "Registration Successful"
            "Your account is linked to an existing patient record."
            "/login-page" "Go to Login"
        else
          message_page "Registration Successful"
            "Account created. A technician will link your record later."
            "/login-page" "Go to Login")) := by
  cases hu : db.users.find? (fun x => x.username == username) with
  | some u =>
    constructor
    · intro _
      simp only [register_patient, hu]
    · intro hnone
      exact absurd hnone (by simp)
  | none =>
    constructor
    · intro hsome
      exact absurd hsome (by simp)
    · intro _
      cases hp : db.patients.find? (fun p => p.code == code) with
      | some rec =>
        constructor
        · simp only [register_patient, hu, hp]
        · simp only [register_patient, hu, hp, Option.isSome_some, if_true]
      | none =>
        constructor
        · simp only [register_patient, hu, hp]
        · simp only [register_patient, hu, hp, Option.isSome_none, Bool.false_eq_true,
            if_false]

/-- C7 witness: the three concrete outcomes — duplicate failure, linked
success, pending-link success. -/
theorem C7_witness :
    register_patient "alice" "pw" "P-001"
        ⟨[⟨1, "alice", "old", "Patient"⟩], []⟩ 2 =
      (message_page "Registration Failed" "Username already exists."
        "/register-page" "Try Again", ⟨[⟨1, "alice", "old", "Patient"⟩], []⟩) ∧
    (register_patient "bob" "pw" "P-001" ⟨[], [⟨1, "Rec", "P-001", none⟩]⟩ 1).1 =
      message_page "Registration Successful"
        "Your account is linked to an existing patient record."
        "/login-page" "Go to Login" ∧
    (register_patient "carol" "pw" "NOPE" ⟨[], [⟨1, "Rec", "P-001", none⟩]⟩ 1).1 =
      message_page "Registration Successful"
        "Account created. A technician will link your record later."
        "/login-page" "Go to Login" :=
  ⟨(C7_register_patient_outcomes "alice" "pw" "P-001"
      ⟨[⟨1, "alice", "old", "Patient"⟩], []⟩ 2).1 (by decide),
   ((C7_register_patient_outcomes "bob" "pw" "P-001"
      ⟨[], [⟨1, "Rec", "P-001", none⟩]⟩ 1).2 (by decide)).2.trans (by decide),
   ((C7_register_patient_outcomes "carol" "pw" "NOPE"
      ⟨[], [⟨1, "Rec", "P-001", none⟩]⟩ 1).2 (by decide)).2.trans (by decide)⟩

/-- C10: once the user lookup (keyed on username and role) succeeds, the
login attempt is rejected as InvalidCredential exactly when the submitted
password differs, character for character, from the stored plaintext
password — equality of the strings is the whole check. -/
theorem C10_password_check_is_exact_equality (username password role : String)
    (db : Db) (store : SessionStore) (session_id : String) (a : User)
    (h : db.users.find? (fun x => x.username == username && x.role == role) = some a) :
    ((login username password role db store session_id).1 = LoginResult.incorrectPassword ↔
      password ≠ a.password) := by
  simp only [login, h]
  by_cases hpw : a.password ≠ password
  · rw [if_pos hpw]
    simp [Ne.symm hpw]
  · rw [if_neg hpw]
    have heq : password = a.password := by
      by_contra hc
      exact hpw (Ne.symm hc)
    constructor
    · intro hres
      exfalso
      revert hres
      by_cases hrole : role = "Patient"
      · rw [if_pos hrole]
        cases db.patients.find? (fun p => p.linked_user_id == some a.id) <;> simp
      · rw [if_neg hrole]
        by_cases h2 : role = "Technician"
        · rw [if_pos h2]; simp
        · rw [if_neg h2]
          by_cases h3 : role = "Physician"
          · rw [if_pos h3]; simp
          · rw [if_neg h3]; simp
    · intro hcontra
      exact absurd heq hcontra

/-- C10 witness: with "alice"/"pw" stored, submitting "bad" is rejected as
InvalidCredential precisely because "bad" differs from "pw". -/
theorem C10_witness :
    ((login "alice" "bad" "Patient"
        ⟨[⟨1, "alice", "pw", "Patient"⟩], []⟩ [] "tok").1 =
      LoginResult.incorrectPassword ↔ ("bad" : String) ≠ "pw") :=
  C10_password_check_is_exact_equality "alice" "bad" "Patient"
    ⟨[⟨1, "alice", "pw", "Patient"⟩], []⟩ [] "tok" ⟨1, "alice", "pw", "Patient"⟩
    (by decide)
